import Mathlib

set_option maxRecDepth 100000
set_option maxHeartbeats 2000000

/-- A value in the `terms` (or `titleterms`) table of the search index: the
source stores either a single docname index (a bare integer) or a list of
docname indices. -/
inductive TermVal where
  | one (i : Nat)
  | many (is : List Nat)
deriving DecidableEq

/-- One member entry of the object table: member name, docname index,
object-kind code, priority code, short signature/anchor string —
the shape `memberName: [docnameIndex, kindCode, priorityCode, shortSignature]`
of `src/searchindex.js`. -/
abbrev ObjMember := String × Nat × Nat × Nat × String

/-- The top-level structure passed to `Search.setIndex` in
`src/searchindex.js`: envversion, filenames, titles, objects, objnames,
objtypes, terms, titleterms. Mappings are kept as association lists in the
source's key order. -/
structure SearchIndex where
  envversion : Nat
  filenames : List String
  titles : List String
  objects : List (String × List ObjMember)
  objnames : List (String × String × String × String)
  objtypes : List (String × String)
  terms : List (String × TermVal)
  titleterms : List (String × TermVal)

def nusslFilenames : List String := [
  "examples/audio_signal_demo", "examples/duet_demo", "examples/examples",
  "examples/repet_demo", "examples/repet_find_repeating_demo", "examples/repet_sim_demo",
  "getting_started/audio_signal", "getting_started/audio_signal_basics", "getting_started/audio_signal_stft",
  "getting_started/getting_started", "getting_started/install", "getting_started/repet",
  "index", "src/KAM", "src/Nmf",
  "src/audio_signal", "src/classes", "src/constants",
  "src/duet", "src/modules", "src/repet",
  "src/repet_sim", "src/separation_base", "src/spectral_utils",
  "src/utils"]

def nusslTitles : List String := [
  "AduioSignal example", "DUET example", "nussl Examples",
  "REPET example", "Finding the repeating period of a song using REPET", "REPET-SIM example",
  "The AudioSignal Object", "AudioSignal Basics", "Spectrograms and STFTs",
  "Getting Started", "Installation", "Using REPET",
  "nussl", "KAM Class", "Nmf Class",
  "AudioSignal Class", "nussl Classes", "constants.py",
  "Duet Class", "Modules", "Repet Class",
  "RepetSim Class", "SeparationBase Class", "spectral_utils.py",
  "utils.py"]

def nusslObjects : List (String × List ObjMember) := [
  ("", [("Duet", 18, 0, 0, "-"), ("KAM", 13, 0, 0, "-"), ("Nmf", 14, 0, 0, "-"), ("Repet", 20, 0, 0, "-"), ("audio_signal", 15, 0, 0, "-"), ("separation_base", 22, 0, 0, "-"), ("spectral_utils", 23, 0, 0, "-"), ("utils", 24, 0, 0, "-")]),
  ("Duet.Duet", [("find_peaks2", 18, 2, 1, ""), ("find_peaks", 18, 2, 1, ""), ("make_audio_signals", 18, 3, 1, ""), ("plot", 18, 3, 1, ""), ("run", 18, 3, 1, ""), ("twoDsmooth", 18, 3, 1, "")]),
  ("KAM.Kernel", [("gen_predef_kernel", 13, 3, 1, ""), ("sim", 13, 3, 1, "")]),
  ("Nmf.DistanceType", [("DEFAULT", 14, 5, 1, ""), ("DIVERGENCE", 14, 5, 1, ""), ("EUCLIDEAN", 14, 5, 1, "")]),
  ("Nmf.NMF", [("make_audio_signals", 14, 3, 1, ""), ("plot", 14, 3, 1, ""), ("randomize_input_matrices", 14, 3, 1, ""), ("recombine_calculated_matrices", 14, 3, 1, ""), ("run", 14, 3, 1, ""), ("update", 14, 3, 1, "")]),
  ("Repet.Repet", [("compute_beat_spectrum", 20, 2, 1, ""), ("compute_repeating_mask_sim", 20, 2, 1, ""), ("compute_repeating_mask_with_beat_spectrum", 20, 2, 1, ""), ("compute_similarity_matrix", 20, 2, 1, ""), ("find_peaks", 20, 3, 1, ""), ("find_repeating_period_complex", 20, 2, 1, ""), ("find_repeating_period_simple", 20, 2, 1, ""), ("find_similarity_indices", 20, 3, 1, ""), ("get_beat_spectrum", 20, 3, 1, ""), ("get_similarity_matrix", 20, 3, 1, ""), ("make_audio_signals", 20, 3, 1, ""), ("plot", 20, 3, 1, ""), ("run", 20, 3, 1, ""), ("update_periods", 20, 3, 1, "")]),
  ("Repet.RepetType", [("DEFAULT", 20, 5, 1, ""), ("ORIGINAL", 20, 5, 1, ""), ("SIM", 20, 5, 1, ""), ("all_types", 20, 5, 1, "")]),
  ("audio_signal.AudioSignal", [("active_region_is_default", 15, 5, 1, ""), ("add", 15, 3, 1, ""), ("audio_data", 15, 5, 1, ""), ("audio_data_as_ints", 15, 3, 1, ""), ("concat", 15, 3, 1, ""), ("file_name", 15, 5, 1, ""), ("freq_vector", 15, 5, 1, ""), ("from_json", 15, 2, 1, ""), ("get_channel", 15, 3, 1, ""), ("get_power_spectrogram_channel", 15, 3, 1, ""), ("get_stft_channel", 15, 3, 1, ""), ("istft", 15, 3, 1, ""), ("load_audio_from_array", 15, 3, 1, ""), ("load_audio_from_file", 15, 3, 1, ""), ("num_channels", 15, 5, 1, ""), ("num_fft_bins", 15, 5, 1, ""), ("peak_normalize", 15, 3, 1, ""), ("plot_spectrogram", 15, 3, 1, ""), ("plot_time_domain", 15, 3, 1, ""), ("power_spectrogram_data", 15, 5, 1, ""), ("rms", 15, 3, 1, ""), ("set_active_region", 15, 3, 1, ""), ("set_active_region_to_default", 15, 3, 1, ""), ("signal_duration", 15, 5, 1, ""), ("signal_length", 15, 5, 1, ""), ("stft", 15, 3, 1, ""), ("stft_data", 15, 5, 1, ""), ("stft_length", 15, 5, 1, ""), ("sub", 15, 3, 1, ""), ("time_vector", 15, 5, 1, ""), ("to_json", 15, 3, 1, ""), ("to_mono", 15, 3, 1, ""), ("truncate_samples", 15, 3, 1, ""), ("truncate_seconds", 15, 3, 1, ""), ("write_audio_to_file", 15, 3, 1, ""), ("zero_pad", 15, 3, 1, "")]),
  ("separation_base.SeparationBase", [("audio_signal", 22, 5, 1, ""), ("from_json", 22, 6, 1, ""), ("make_audio_signals", 22, 3, 1, ""), ("plot", 22, 3, 1, ""), ("run", 22, 3, 1, ""), ("sample_rate", 22, 5, 1, ""), ("stft_params", 22, 5, 1, ""), ("to_json", 22, 3, 1, "")]),
  ("separation_base.SeparationBaseDecoder", [("json_separation_decoder", 22, 3, 1, "")]),
  ("spectral_utils.StftParams", [("from_json", 23, 2, 1, ""), ("hop_length", 23, 5, 1, ""), ("n_fft_bins", 23, 5, 1, ""), ("to_json", 23, 3, 1, ""), ("window_length", 23, 5, 1, ""), ("window_overlap", 23, 5, 1, "")]),
  ("Duet", [("Duet", 18, 1, 1, "")]),
  ("KAM", [("Kernel", 13, 1, 1, ""), ("kam", 13, 4, 1, ""), ("kaml", 13, 4, 1, ""), ("randSVD", 13, 4, 1, "")]),
  ("Nmf", [("DistanceType", 14, 1, 1, ""), ("NMF", 14, 1, 1, "")]),
  ("Repet", [("Repet", 20, 1, 1, ""), ("RepetType", 20, 1, 1, "")]),
  ("audio_signal", [("AudioSignal", 15, 1, 1, "")]),
  ("separation_base", [("SeparationBase", 22, 1, 1, ""), ("SeparationBaseDecoder", 22, 1, 1, "")]),
  ("spectral_utils", [("StftParams", 23, 1, 1, ""), ("e_istft", 23, 4, 1, ""), ("e_stft", 23, 4, 1, ""), ("e_stft_plus", 23, 4, 1, ""), ("get_window_function", 23, 4, 1, ""), ("librosa_istft_wrapper", 23, 4, 1, ""), ("librosa_stft_wrapper", 23, 4, 1, ""), ("make_window", 23, 4, 1, ""), ("plot_stft", 23, 4, 1, "")]),
  ("utils", [("add_mismatched_arrays", 24, 4, 1, ""), ("find_peak_indices", 24, 4, 1, ""), ("find_peak_values", 24, 4, 1, ""), ("json_numpy_obj_hook", 24, 4, 1, ""), ("json_ready_numpy_array", 24, 4, 1, ""), ("json_serialize_numpy_array", 24, 4, 1, ""), ("load_numpy_json", 24, 4, 1, "")])]

def nusslObjnames : List (String × String × String × String) := [
  ("0", "py", "module", "Python module"),
  ("1", "py", "class", "Python class"),
  ("2", "py", "staticmethod", "Python static method"),
  ("3", "py", "method", "Python method"),
  ("4", "py", "function", "Python function"),
  ("5", "py", "attribute", "Python attribute"),
  ("6", "py", "classmethod", "Python class method")]

def nusslObjtypes : List (String × String) := [
  ("0", "py:module"), ("1", "py:class"),
  ("2", "py:staticmethod"), ("3", "py:method"),
  ("4", "py:function"), ("5", "py:attribute"),
  ("6", "py:classmethod")]

def nusslTerms1 : List (String × TermVal) := [
  ("00000000e", TermVal.many [7, 8]), ("00j", TermVal.one 8), ("01010437e", TermVal.one 8),
  ("01459695e", TermVal.one 11), ("01j", TermVal.one 8), ("02j", TermVal.one 8),
  ("03712653e", TermVal.one 11), ("03958548e", TermVal.one 8), ("03j", TermVal.one 8),
  ("04370117e", TermVal.one 7), ("04j", TermVal.one 8), ("05355762e", TermVal.one 11),
  ("05598299e", TermVal.one 8), ("05j", TermVal.one 8), ("06j", TermVal.one 8),
  ("09772983e", TermVal.one 8), ("0th", TermVal.one 24), ("10351562e", TermVal.one 7),
  ("10690389e", TermVal.one 8), ("10865979e", TermVal.one 8), ("10948921e", TermVal.one 8),
  ("11507810e", TermVal.one 8), ("13543447e", TermVal.one 8), ("13899261e", TermVal.one 8),
  ("13th", TermVal.one 20), ("15182253e", TermVal.one 8), ("16959708e", TermVal.one 11),
  ("17312478e", TermVal.one 11), ("17514888e", TermVal.one 8), ("18454359e", TermVal.one 8),
  ("19548659e", TermVal.one 8), ("1khz", TermVal.many [15, 23]), ("1st", TermVal.one 24),
  ("22329084e", TermVal.one 11), ("23063958e", TermVal.one 8), ("24206716e", TermVal.one 8),
  ("25701912e", TermVal.one 8), ("26759941e", TermVal.one 7), ("29464362e", TermVal.one 8),
  ("32384062e", TermVal.one 8), ("32742891e", TermVal.one 8), ("34350201e", TermVal.one 8),
  ("36735573e", TermVal.one 8), ("38020910e", TermVal.one 11), ("38383443e", TermVal.one 11),
  ("39212409e", TermVal.one 8), ("44100hz", TermVal.one 23), ("47192383e", TermVal.one 7),
  ("48025423e", TermVal.one 8), ("48095401e", TermVal.one 11), ("48953497e", TermVal.one 8),
  ("49999994e", TermVal.one 8), ("51177116e", TermVal.one 8), ("51614663e", TermVal.one 8),
  ("52118325e", TermVal.one 8), ("53445200e", TermVal.one 11), ("53519881e", TermVal.one 7),
  ("55473606e", TermVal.one 8), ("56239875e", TermVal.one 11), ("56665993e", TermVal.one 8),
  ("58720455e", TermVal.one 8), ("5a9", TermVal.one 10), ("62078346e", TermVal.one 11),
  ("62180164e", TermVal.one 11), ("62709228e", TermVal.one 8), ("63284254e", TermVal.one 11),
  ("63712271e", TermVal.one 8), ("64896795e", TermVal.one 11), ("65341552e", TermVal.one 8),
  ("65585184e", TermVal.one 8), ("66982430e", TermVal.one 8), ("67004268e", TermVal.one 8),
  ("67153326e", TermVal.one 8), ("69027053e", TermVal.one 8), ("69828972e", TermVal.one 8),
  ("75931435e", TermVal.one 11), ("79334674e", TermVal.one 8), ("83410645e", TermVal.one 7),
  ("83490305e", TermVal.one 8), ("83491215e", TermVal.one 8), ("84503690e", TermVal.one 8),
  ("87543298e", TermVal.one 8), ("89334124e", TermVal.one 8), ("91909746e", TermVal.one 8),
  ("92616252e", TermVal.one 11), ("93204018e", TermVal.one 8), ("95030794e", TermVal.one 8),
  ("95939099e", TermVal.one 8), ("96160686e", TermVal.one 8), ("97824207e", TermVal.one 8),
  ("97913919e", TermVal.one 8), ("99995465e", TermVal.one 7), ("99997732e", TermVal.one 7),
  ("99998429e", TermVal.one 11), ("__file__", TermVal.many [0, 3, 5]), ("__future__", TermVal.one 7),
  ("__init__", TermVal.one 10), ("__main__", TermVal.many [0, 1, 3, 4, 5]), ("__name__", TermVal.many [0, 1, 3, 4, 5]),
  ("_backend_mod", TermVal.one 10), ("_macosx", TermVal.one 10), ("_show", TermVal.one 10),
  ("case", TermVal.many [10, 13, 24]), ("class", TermVal.many []), ("default", TermVal.many [7, 8, 10, 13, 14, 15, 18, 20, 22, 23, 24]),
  ("final", TermVal.many []), ("float", TermVal.many [4, 7, 13, 15, 18, 20, 24]), ("function", TermVal.many [8, 10, 13, 14, 15, 23, 24]),
  ("import", TermVal.many [0, 1, 3, 4, 5, 7, 10, 11, 23]), ("int", TermVal.many [7, 13, 15, 18, 20, 22, 23, 24]), ("new", TermVal.many [7, 8, 11, 12, 13, 15, 22]),
  ("return", TermVal.many [7, 14, 15, 18, 20, 22, 23, 24]), ("short", TermVal.many [8, 15, 23]), ("static", TermVal.many [15, 18, 20, 23]),
  ("switch", TermVal.one 10), ("throw", TermVal.one 20), ("true", TermVal.many [1, 7, 8, 13, 15, 18, 20, 23, 24]),
  ("try", TermVal.many [8, 10, 11]), ("while", TermVal.many [8, 12, 15]), ("a_max", TermVal.one 18),
  ("a_min", TermVal.one 18), ("a_min_dist", TermVal.one 18), ("a_num", TermVal.one 18),
  ("abl", TermVal.many [8, 10]), ("about", TermVal.many [7, 8, 10, 11]), ("abov", TermVal.many [8, 10, 23]),
  ("abspath", TermVal.many [0, 3, 5]), ("accept", TermVal.many [15, 24]), ("access", TermVal.many [8, 10, 15, 23]),
  ("accordingli", TermVal.one 8), ("accur", TermVal.one 8), ("acoust", TermVal.one 13),
  ("across", TermVal.one 11), ("activ", TermVal.many [10, 14, 15]), ("activation_matrix", TermVal.one 14),
  ("active_region_is_default", TermVal.one 15), ("actual", TermVal.many [7, 23]), ("ad_est", TermVal.one 18),
  ("adapt", TermVal.one 24), ("add", TermVal.many [7, 10, 15, 24]), ("add_mismatched_arrai", TermVal.one 24),
  ("addit", TermVal.many [13, 15]), ("addition", TermVal.one 23), ("adjac", TermVal.one 23),
  ("adjust", TermVal.one 8), ("advanc", TermVal.one 14), ("affect", TermVal.one 15),
  ("after", TermVal.many [10, 15, 22]), ("again", TermVal.many [7, 11]), ("aha", TermVal.one 8),
  ("ahead", TermVal.one 23), ("aim", TermVal.one 12), ("algorithm", TermVal.many [7, 8, 11, 12, 13, 14, 15, 18, 20, 22, 23, 24]),
  ("algparam", TermVal.one 13), ("all", TermVal.many [7, 8, 10, 13, 14, 15, 20, 22]), ("all_typ", TermVal.one 20),
  ("allow", TermVal.many [12, 14]), ("almost", TermVal.one 8), ("along", TermVal.one 13),
  ("alongsid", TermVal.one 10), ("alreadi", TermVal.one 23), ("alright", TermVal.one 7),
  ("also", TermVal.many [8, 10, 11, 12, 14, 23, 24]), ("altern", TermVal.one 10), ("alwai", TermVal.one 22),
  ("amountof", TermVal.one 13), ("anaconda2", TermVal.one 10), ("anaconda", TermVal.many []),
  ("ani", TermVal.many [10, 12, 13, 15, 20, 23, 24]), ("anoth", TermVal.many [7, 10]), ("antoin", TermVal.one 13),
  ("anyth", TermVal.one 22), ("arang", TermVal.many [7, 13]), ("arbitrari", TermVal.one 11),
  ("arg", TermVal.many []), ("argmin", TermVal.one 8), ("argument", TermVal.one 20),
  ("aris", TermVal.one 10), ("around", TermVal.one 23), ("arrai", TermVal.many []),
  ("array1", TermVal.one 24), ("array2", TermVal.one 24), ("array_json", TermVal.one 24),
  ("artifact", TermVal.one 8), ("asarrai", TermVal.one 13), ("associ", TermVal.many [20, 22]),
  ("assum", TermVal.many [8, 14, 23]), ("attenu", TermVal.one 18), ("attribut", TermVal.many [18, 23]),
  ("attributeerror", TermVal.one 15), ("audio", TermVal.many [3, 5, 7, 11, 12, 13, 15, 18, 20, 23]), ("audio_data", TermVal.many [7, 8, 15]),
  ("audio_data_arrai", TermVal.many [7, 15]), ("audio_data_as_int", TermVal.many [7, 15]), ("audio_sign", TermVal.many [11, 14, 15, 18, 20, 22]),
  ("audiolab", TermVal.one 13), ("audioread", TermVal.one 10), ("audiosign", TermVal.many []),
  ("author", TermVal.one 12), ("autocorrel", TermVal.one 20), ("automat", TermVal.many [8, 11]),
  ("avail", TermVal.many [10, 15, 23]), ("averag", TermVal.many [7, 18, 20]), ("awar", TermVal.one 15),
  ("awesom", TermVal.one 7), ("axi", TermVal.many [13, 15]), ("back", TermVal.many [8, 11, 24]),
  ("backend", TermVal.one 10), ("backend_macosx", TermVal.one 10), ("backend_nam", TermVal.one 10),
  ("backfit", TermVal.one 13), ("backgroun", TermVal.one 3), ("background", TermVal.many [5, 11, 20]),
  ("barrier", TermVal.one 12), ("base", TermVal.many [4, 7, 8, 14, 15, 18, 20, 22]), ("basestr", TermVal.one 23),
  ("basi", TermVal.one 13), ("basic", TermVal.many []), ("bean", TermVal.one 8),
  ("beat", TermVal.many [11, 20]), ("beat_spec", TermVal.one 20), ("beat_spectrum", TermVal.many [4, 11, 20]),
  ("becaus", TermVal.many [7, 8, 10]), ("been", TermVal.many [8, 11, 14]), ("befor", TermVal.many [7, 8, 11, 12, 15]),
  ("begin", TermVal.many [15, 23]), ("behavior", TermVal.many [7, 23]), ("belong", TermVal.one 24),
  ("below", TermVal.one 23), ("between", TermVal.many [7, 13, 18, 20, 23, 24]), ("bin", TermVal.many [8, 11, 13, 15, 18, 20, 23]),
  ("binari", TermVal.many [10, 13]), ("bit", TermVal.one 15), ("bit_depth", TermVal.one 15),
  ("bkgd", TermVal.many [3, 5, 20]), ("blackman", TermVal.many []), ("blind", TermVal.one 18),
  ("bookkeep", TermVal.one 8), ("bool", TermVal.many [15, 18, 20, 23, 24]), ("both", TermVal.many [8, 11, 13, 20, 24]),
  ("bound", TermVal.many [15, 24]), ("breviti", TermVal.one 8), ("brief", TermVal.one 7),
  ("bryan", TermVal.one 20), ("bss", TermVal.one 18), ("bubbl", TermVal.many []),
  ("bug", TermVal.one 12), ("built", TermVal.one 23), ("calcul", TermVal.many [15, 20, 23]),
  ("calculated_sign", TermVal.many [15, 23]), ("calculated_stft", TermVal.one 15), ("call", TermVal.many [8, 10, 11, 14, 20, 22, 23]),
  ("callabl", TermVal.one 23), ("can", TermVal.many [7, 8, 10, 11, 13, 15, 20, 23, 24]), ("cannot", TermVal.many [7, 15, 20, 22]),
  ("canva", TermVal.many [10, 23]), ("captur", TermVal.one 18), ("caus", TermVal.one 20),
  ("center", TermVal.one 23), ("central", TermVal.one 13), ("certain", TermVal.one 7),
  ("chang", TermVal.many [7, 8, 23]), ("channel", TermVal.many [7, 8, 13, 15, 18, 20, 23]), ("check", TermVal.many [10, 11]),
  ("choic", TermVal.one 13), ("classmethod", TermVal.one 22), ("close", TermVal.one 13),
  ("closest", TermVal.one 8), ("clue", TermVal.one 11), ("column", TermVal.many [13, 18]),
  ("com", TermVal.many [10, 23, 24]), ("combin", TermVal.one 13), ("come", TermVal.one 7),
  ("command", TermVal.one 10), ("common", TermVal.many [7, 12]), ("compact", TermVal.one 13),
  ("compar", TermVal.one 10), ("complet", TermVal.one 23), ("complex64", TermVal.one 8),
  ("complex", TermVal.many [4, 8, 13, 15, 23]), ("compon", TermVal.one 13), ("compress", TermVal.one 13),
  ("comput", TermVal.many [8, 11, 13, 14, 15, 20, 23]), ("computation", TermVal.one 13), ("compute_beat_spectrum", TermVal.many [11, 20]),
  ("compute_repeating_mask_sim", TermVal.one 20), ("compute_repeating_mask_with_beat_spectrum", TermVal.one 20), ("compute_similarity_matrix", TermVal.one 20),
  ("concat", TermVal.one 15), ("concaten", TermVal.one 15), ("confer", TermVal.one 13),
  ("config", TermVal.one 10), ("configur", TermVal.one 24), ("consid", TermVal.one 13),
  ("consol", TermVal.one 8), ("constant", TermVal.many []), ("conta", TermVal.one 13),
  ("contain", TermVal.many [7, 8, 11, 13, 15, 18, 20, 23]), ("content", TermVal.one 15), ("control", TermVal.many [12, 15]),
  ("conveni", TermVal.one 23), ("convert", TermVal.many [4, 7, 15, 24]), ("convolut", TermVal.one 18),
  ("cool", TermVal.many [7, 8]), ("coordin", TermVal.one 13), ("copi", TermVal.many [8, 10, 11, 22])]

def nusslTerms2 : List (String × TermVal) := [
  ("core", TermVal.one 12), ("correctli", TermVal.many [8, 10]), ("correspond", TermVal.many [13, 15, 18, 20]),
  ("cosin", TermVal.one 20), ("could", TermVal.one 11), ("cowbell1_guitar_background_lib2", TermVal.one 3),
  ("cowbell1_guitar_foreground_lib2", TermVal.one 3), ("crash", TermVal.many [8, 10]), ("creat", TermVal.many [1, 8, 10, 11, 12, 15, 20, 22, 23]),
  ("cross", TermVal.one 13), ("crucial", TermVal.one 7), ("current", TermVal.many [7, 15, 24]),
  ("d_max", TermVal.one 18), ("d_min", TermVal.one 18), ("d_min_dist", TermVal.one 18),
  ("d_num", TermVal.one 18), ("daniel", TermVal.one 14), ("data", TermVal.many [7, 8, 15, 18, 20, 22, 23]),
  ("date", TermVal.one 10), ("dct", TermVal.one 24), ("decod", TermVal.many [22, 24]),
  ("decompos", TermVal.one 23), ("def", TermVal.many [0, 1, 3, 4, 5, 8]), ("default_sample_r", TermVal.many [15, 18, 23]),
  ("defin", TermVal.many [13, 14, 15]), ("defult", TermVal.one 13), ("degener", TermVal.one 18),
  ("delai", TermVal.one 18), ("demix", TermVal.one 18), ("demo", TermVal.many [18, 20]),
  ("demonstr", TermVal.one 11), ("denciti", TermVal.one 13), ("densiti", TermVal.one 23),
  ("depend", TermVal.one 10), ("deprec", TermVal.one 23), ("depth", TermVal.one 15),
  ("derri", TermVal.one 13), ("describ", TermVal.one 20), ("desir", TermVal.one 20),
  ("determin", TermVal.many [7, 13, 15, 20, 23]), ("dev1_female3_inst_mix", TermVal.many [1, 18]), ("develop", TermVal.many [10, 18]),
  ("diagon", TermVal.one 13), ("dict", TermVal.one 24), ("dietrich", TermVal.one 18),
  ("diff", TermVal.one 15), ("differ", TermVal.many [7, 11, 15, 23, 24]), ("dimens", TermVal.many [7, 8, 18, 24]),
  ("dimension", TermVal.many [18, 24]), ("direct", TermVal.one 13), ("directli", TermVal.many [10, 22, 23]),
  ("directori", TermVal.many [1, 3, 5, 10]), ("dirnam", TermVal.many [0, 3, 5]), ("dismiss", TermVal.one 20),
  ("displai", TermVal.one 23), ("dist", TermVal.one 10), ("distanc", TermVal.many [13, 14, 18, 20, 24]),
  ("distance_measur", TermVal.one 14), ("distancetyp", TermVal.one 14), ("diverg", TermVal.one 14),
  ("divis", TermVal.one 7), ("do_min", TermVal.one 24), ("do_stft", TermVal.one 14),
  ("doa", TermVal.one 18), ("doe", TermVal.many [7, 8, 15, 23]), ("doesn", TermVal.one 7),
  ("domain", TermVal.many [7, 8, 13, 15, 18]), ("don", TermVal.many [20, 23]), ("done", TermVal.many [15, 20]),
  ("dot", TermVal.one 12), ("down", TermVal.many []), ("download", TermVal.many []),
  ("draw_if_interact", TermVal.one 10), ("dtype", TermVal.many [7, 8, 13, 24]), ("duet_sourc", TermVal.one 1),
  ("duet_test1", TermVal.one 0), ("dur", TermVal.one 7), ("durat", TermVal.one 23),
  ("e_istft", TermVal.one 23), ("e_stft", TermVal.one 23), ("e_stft_plu", TermVal.one 23),
  ("each", TermVal.many [1, 7, 8, 11, 13, 15, 20, 23, 24]), ("easi", TermVal.many [7, 8, 10, 12]), ("edu", TermVal.many [12, 20]),
  ("eec", TermVal.one 20), ("effect", TermVal.one 23), ("effici", TermVal.one 23),
  ("egg", TermVal.one 10), ("either", TermVal.many [10, 13, 20, 23]), ("element", TermVal.many [13, 15, 18, 20]),
  ("elimin", TermVal.one 8), ("els", TermVal.one 20), ("elsewher", TermVal.one 10),
  ("encod", TermVal.many [15, 24]), ("encount", TermVal.one 10), ("end", TermVal.many [15, 23]),
  ("entir", TermVal.one 15), ("entri", TermVal.many [12, 15]), ("equal", TermVal.many [20, 23, 24]),
  ("equival", TermVal.one 13), ("estim", TermVal.many [11, 18]), ("ethan", TermVal.one 12),
  ("ethanmanilow", TermVal.one 12), ("euclidean", TermVal.one 14), ("everi", TermVal.many [7, 8, 23]),
  ("exact", TermVal.one 11), ("exactli", TermVal.many [11, 24]), ("examin", TermVal.one 8),
  ("except", TermVal.many [7, 15, 20]), ("exist", TermVal.many [1, 3, 5, 10]), ("exp", TermVal.one 13),
  ("expand", TermVal.one 24), ("expect", TermVal.many [8, 23]), ("expens", TermVal.one 13),
  ("explain", TermVal.one 23), ("explicitli", TermVal.one 7), ("expon", TermVal.one 13),
  ("extend", TermVal.one 15), ("extens", TermVal.one 15), ("extra", TermVal.one 23),
  ("extract", TermVal.many [11, 13, 15, 18, 20]), ("f_istft", TermVal.one 13), ("f_stft", TermVal.one 13),
  ("factor", TermVal.one 14), ("fail", TermVal.one 10), ("fall", TermVal.one 13),
  ("fals", TermVal.many [0, 8, 13, 14, 15, 18, 23, 24]), ("far", TermVal.one 11), ("faster", TermVal.many [8, 13]),
  ("featur", TermVal.one 15), ("few", TermVal.many [7, 8, 10, 20]), ("fft", TermVal.many [8, 15, 23]),
  ("fgnd", TermVal.many [3, 5]), ("fhat", TermVal.one 13), ("fig", TermVal.many [10, 23]),
  ("figur", TermVal.many [10, 23]), ("file", TermVal.many []), ("file_nam", TermVal.many [7, 15, 23]),
  ("filenam", TermVal.one 15), ("filter", TermVal.many [8, 11, 13, 18]), ("find", TermVal.many []),
  ("find_peak", TermVal.many [18, 20]), ("find_peak_indic", TermVal.one 24), ("find_peak_valu", TermVal.one 24),
  ("find_peaks2", TermVal.one 18), ("find_repeating_period_complex", TermVal.many [4, 20]), ("find_repeating_period_simpl", TermVal.many [4, 20]),
  ("find_similarity_indic", TermVal.one 20), ("fine", TermVal.many [10, 12]), ("first", TermVal.many []),
  ("fitzgerald", TermVal.one 13), ("fix", TermVal.one 10), ("fkgd", TermVal.one 20),
  ("flag", TermVal.many [10, 15, 18, 23]), ("flexibl", TermVal.many [12, 23]), ("float32", TermVal.many [7, 8]),
  ("float64", TermVal.one 13), ("fmaxplot", TermVal.one 13), ("folder", TermVal.one 10),
  ("follow", TermVal.many [10, 23]), ("footnot", TermVal.many [7, 8]), ("forc", TermVal.many [10, 20]),
  ("foreground", TermVal.many [3, 5, 11, 20]), ("format", TermVal.many [7, 23]), ("forward", TermVal.one 8),
  ("found", TermVal.one 1), ("four", TermVal.one 10), ("fourier", TermVal.many [8, 15, 23]),
  ("frame", TermVal.many [11, 13, 20]), ("framework", TermVal.many [10, 12]), ("freq", TermVal.many [7, 8, 13, 20, 23]),
  ("freq_max", TermVal.one 23), ("freq_vector", TermVal.many [8, 15]), ("frequeci", TermVal.one 13),
  ("frequenc", TermVal.many [7, 8, 13, 15, 18, 23]), ("frequency_vector", TermVal.one 8), ("from", TermVal.many []),
  ("from_json", TermVal.many [15, 22, 23]), ("full", TermVal.many [7, 13, 15]), ("fullkernel", TermVal.one 13),
  ("funcion", TermVal.one 13), ("further", TermVal.one 18), ("futur", TermVal.one 8),
  ("gamma", TermVal.one 13), ("gen_predef_kernel", TermVal.one 13), ("gener", TermVal.many [13, 20, 24]),
  ("get", TermVal.many []), ("get_beat_spectrum", TermVal.many [4, 11, 20]), ("get_channel", TermVal.many [7, 15]),
  ("get_power_spectrogram_channel", TermVal.one 15), ("get_similarity_matrix", TermVal.one 20), ("get_stft_channel", TermVal.many [8, 15]),
  ("get_supported_filetyp", TermVal.many [10, 23]), ("get_window_funct", TermVal.one 23), ("github", TermVal.many [10, 12]),
  ("give", TermVal.many [11, 20, 23]), ("given", TermVal.many [13, 18, 20]), ("global", TermVal.one 10),
  ("good", TermVal.one 20), ("gotcha", TermVal.one 7), ("graph", TermVal.one 23),
  ("great", TermVal.one 7), ("guarante", TermVal.many [8, 23, 24]), ("guess", TermVal.many [7, 11]),
  ("guitar2__cowbell1_background_libstft", TermVal.one 5), ("guitar2__cowbell1_foreground_libstft", TermVal.one 5), ("guitar2__cowbell1_none_0", TermVal.many [3, 5]),
  ("guitar2__cowbell1_similarity_matrix_lib", TermVal.one 5), ("hadn", TermVal.many [7, 11]), ("half", TermVal.many [20, 23]),
  ("ham", TermVal.many [13, 20]), ("hann", TermVal.one 23), ("have", TermVal.many []),
  ("haven", TermVal.one 20), ("heart", TermVal.one 7), ("help", TermVal.one 7),
  ("henc", TermVal.one 13), ("here", TermVal.many [7, 10, 11, 23]), ("high_pass_cutoff", TermVal.one 20),
  ("highest", TermVal.one 23), ("highli", TermVal.one 10), ("histogram", TermVal.many [1, 18]),
  ("histoi", TermVal.one 11), ("histori", TermVal.one 11), ("history_background", TermVal.one 11),
  ("history_beat_spectrum", TermVal.one 11), ("history_foreground", TermVal.one 11), ("historyrepeating_propellorhead", TermVal.one 4),
  ("historyrepeatingpropellerhead", TermVal.one 11), ("hop", TermVal.many [4, 8, 11, 23]), ("hop_length", TermVal.many [1, 4, 8, 15, 23]),
  ("horizont", TermVal.one 13), ("how", TermVal.many [7, 8, 11]), ("http", TermVal.many [10, 20, 23, 24]),
  ("icassp", TermVal.one 13), ("idx", TermVal.one 8), ("ieee", TermVal.many [13, 18]),
  ("ifi", TermVal.many [22, 24]), ("imag", TermVal.many [13, 23]), ("implement", TermVal.many [8, 12, 13, 14, 15, 18, 20]),
  ("includ", TermVal.many [13, 23]), ("index", TermVal.many [8, 10, 12, 15]), ("individu", TermVal.one 23),
  ("ineleg", TermVal.one 10), ("info", TermVal.many [7, 10]), ("inform", TermVal.many [7, 10, 14, 20, 23]),
  ("inherit", TermVal.one 23), ("init", TermVal.one 22), ("input", TermVal.many [0, 1, 3, 4, 5, 7, 13, 14, 15, 18, 20, 23, 24]),
  ("input_arrai", TermVal.one 24), ("input_audio_sign", TermVal.many [14, 18, 20, 22]), ("input_file_nam", TermVal.many [1, 18]),
  ("input_file_path", TermVal.many [7, 8, 15]), ("input_nam", TermVal.many [3, 5, 20]), ("inputfil", TermVal.one 13),
  ("insert", TermVal.many [0, 3, 5]), ("insid", TermVal.one 10), ("inspect", TermVal.many [8, 24]),
  ("instanc", TermVal.one 23), ("instanti", TermVal.many [11, 15, 22]), ("instead", TermVal.many [8, 13, 20, 23, 24]),
  ("int16", TermVal.one 7), ("integ", TermVal.many [11, 15, 23, 24]), ("intend", TermVal.one 23),
  ("interact", TermVal.many [12, 23]), ("interactiveaudiolab", TermVal.many []), ("interest", TermVal.one 8),
  ("interfac", TermVal.one 8), ("intern", TermVal.many [7, 8, 13, 20, 23]), ("interv", TermVal.one 13),
  ("introduct", TermVal.one 7), ("invers", TermVal.many []), ("invert", TermVal.one 8),
  ("issu", TermVal.many []), ("istft", TermVal.many [0, 8, 15, 23]), ("iter", TermVal.one 13),
  ("join", TermVal.many [0, 1, 3, 5]), ("jourjin", TermVal.one 18), ("json", TermVal.many [15, 22, 24]),
  ("json_dict", TermVal.one 22), ("json_numpy_obj_hook", TermVal.one 24), ("json_ready_numpy_arrai", TermVal.one 24),
  ("json_separation_decod", TermVal.one 22), ("json_serialize_numpy_arrai", TermVal.one 24), ("json_str", TermVal.many [15, 22, 23]),
  ("jsondecod", TermVal.many []), ("jump", TermVal.one 23), ("just", TermVal.many [7, 8, 11, 15, 23]),
  ("k_cross", TermVal.one 13), ("kam", TermVal.many []), ("kaml", TermVal.one 13),
  ("kbf", TermVal.one 13), ("kernel", TermVal.many [13, 18]), ("khz", TermVal.one 7),
  ("kind", TermVal.many [8, 11]), ("knhood", TermVal.one 13), ("know", TermVal.many [8, 11]),
  ("kparam", TermVal.one 13), ("kparamv", TermVal.one 13), ("ktype", TermVal.one 13),
  ("kwarg", TermVal.many [14, 20, 22]), ("kwfunc", TermVal.one 13), ("lab", TermVal.one 12),
  ("lambda", TermVal.one 13), ("larger", TermVal.many [15, 24]), ("last", TermVal.many [10, 23])]

def nusslTerms3 : List (String × TermVal) := [
  ("leav", TermVal.many [8, 15]), ("lee", TermVal.one 14), ("left", TermVal.one 15),
  ("len", TermVal.many [7, 24]), ("length", TermVal.many [8, 11, 13, 15, 20, 23, 24]), ("less", TermVal.many [13, 15]),
  ("let", TermVal.many [7, 8, 11]), ("level", TermVal.many [8, 12, 23]), ("lib", TermVal.one 10),
  ("librari", TermVal.one 12), ("librosa", TermVal.many [8, 10, 23]), ("librosa_istft_wrapp", TermVal.one 23),
  ("librosa_stft_wrapp", TermVal.one 23), ("light", TermVal.one 13), ("like", TermVal.many [7, 8, 10, 11, 23]),
  ("limit", TermVal.one 13), ("line", TermVal.one 10), ("linear", TermVal.one 13),
  ("linspac", TermVal.one 23), ("list", TermVal.many [13, 18, 20, 24]), ("littl", TermVal.one 8),
  ("liutku", TermVal.one 13), ("load", TermVal.many [0, 1, 7, 11, 15]), ("load_audio_from_arrai", TermVal.one 15),
  ("load_audio_from_fil", TermVal.one 15), ("load_numpy_json", TermVal.one 24), ("local", TermVal.many [10, 22]),
  ("locat", TermVal.one 10), ("logic", TermVal.one 13), ("longer", TermVal.one 13),
  ("look", TermVal.many [8, 10, 11, 20]), ("lot", TermVal.one 7), ("low", TermVal.many [8, 12, 18]),
  ("lower", TermVal.many [23, 24]), ("lp_cutoff", TermVal.one 8), ("lp_stft", TermVal.one 8),
  ("mac", TermVal.one 10), ("machin", TermVal.many [10, 23]), ("macosx", TermVal.one 10),
  ("made", TermVal.one 11), ("magnitud", TermVal.one 20), ("mai", TermVal.many [8, 10, 11, 15, 23]),
  ("main", TermVal.many [0, 1, 3, 4, 5, 7, 15]), ("make", TermVal.many []), ("make_audio_sign", TermVal.many [1, 3, 5, 11, 14, 18, 20, 22]),
  ("make_window", TermVal.one 23), ("makeplot", TermVal.one 13), ("mani", TermVal.many [7, 8, 11, 15, 23]),
  ("manilow", TermVal.one 12), ("manual", TermVal.one 23), ("march", TermVal.one 20),
  ("mask", TermVal.many [18, 20]), ("massag", TermVal.one 23), ("mat", TermVal.many [13, 18, 23]),
  ("match", TermVal.one 10), ("matplotlib", TermVal.many []), ("matplotlibrc", TermVal.one 10),
  ("matrix", TermVal.many [11, 13, 14, 18, 20, 23]), ("max", TermVal.many [23, 24]), ("max_num", TermVal.many [18, 20]),
  ("max_peak", TermVal.one 18), ("max_period", TermVal.many [4, 11, 20]), ("max_repeating_fram", TermVal.one 20),
  ("maximum", TermVal.many [18, 20, 24]), ("mean", TermVal.many [7, 10, 13, 15]), ("meant", TermVal.one 23),
  ("measur", TermVal.many [13, 14, 20]), ("median", TermVal.many [11, 13]), ("merge_file_fhuypf", TermVal.many []),
  ("merge_file_wi3qx7", TermVal.many []), ("meshgrid", TermVal.one 13), ("method", TermVal.many [13, 20]),
  ("might", TermVal.one 10), ("min", TermVal.many [20, 24]), ("min_dist", TermVal.many [18, 20, 24]),
  ("min_distance_between_fram", TermVal.one 20), ("min_period", TermVal.many [4, 11, 20]), ("min_thr", TermVal.many [18, 20]),
  ("minimum", TermVal.many [18, 20, 24]), ("mixtur", TermVal.many [13, 18, 20]), ("mkdir", TermVal.many [1, 3, 5]),
  ("mode", TermVal.many [13, 23]), ("model", TermVal.one 13), ("mono", TermVal.one 7),
  ("more", TermVal.many [7, 8, 10, 15, 23]), ("most", TermVal.many [8, 10]), ("much", TermVal.one 15),
  ("multichannel", TermVal.one 23), ("multipl", TermVal.many [4, 11]), ("multipli", TermVal.one 13),
  ("music", TermVal.one 20), ("must", TermVal.many [11, 14, 24]), ("my_audio_sign", TermVal.one 15),
  ("n_ch", TermVal.one 0), ("n_fft_bin", TermVal.many [8, 15, 23]), ("n_peak", TermVal.one 24),
  ("n_sampl", TermVal.one 15), ("n_sec", TermVal.one 23), ("n_second", TermVal.one 15),
  ("name", TermVal.many [7, 10, 15]), ("ndarrai", TermVal.many [15, 23, 24]), ("neat", TermVal.one 11),
  ("need", TermVal.many [1, 3, 5, 8, 11, 23]), ("neg", TermVal.one 14), ("neighbour", TermVal.one 13),
  ("neighbourhood", TermVal.one 13), ("netherland", TermVal.one 18), ("neural", TermVal.one 14),
  ("never", TermVal.one 22), ("new_beat_spec_plot", TermVal.one 20), ("new_figure_manag", TermVal.one 10),
  ("new_plot", TermVal.one 20), ("new_sim_matrix_plot", TermVal.one 20), ("newest", TermVal.one 10),
  ("next", TermVal.one 23), ("nhood", TermVal.one 13), ("nmf", TermVal.many []),
  ("non", TermVal.many [10, 11, 14, 20]), ("none", TermVal.many [7, 8, 13, 14, 15, 18, 20, 23, 24]), ("normal", TermVal.many [13, 15, 18]),
  ("northwestern", TermVal.many [12, 20]), ("note", TermVal.many [7, 8, 13, 15, 20, 23, 24]), ("noth", TermVal.one 14),
  ("notimplementederror", TermVal.one 22), ("now", TermVal.many [7, 8, 10, 11, 20]), ("num_bin", TermVal.one 23),
  ("num_channel", TermVal.many [0, 7, 15]), ("num_fft", TermVal.one 23), ("num_fft_bin", TermVal.many [8, 13, 15, 23]),
  ("num_sourc", TermVal.one 18), ("num_templ", TermVal.one 14), ("num_time_block", TermVal.one 23),
  ("number", TermVal.many [7, 8, 10, 11, 13, 14, 15, 18, 20, 23, 24]), ("numbi", TermVal.one 13), ("numer", TermVal.many [13, 18, 24]),
  ("numit", TermVal.one 13), ("nump", TermVal.one 24), ("numpi", TermVal.many []),
  ("nussl", TermVal.many []), ("nuzzl", TermVal.one 12), ("nyquist", TermVal.one 23),
  ("obecjt", TermVal.many []), ("obj", TermVal.many []), ("object", TermVal.many []),
  ("octob", TermVal.one 20), ("off", TermVal.one 8), ("okai", TermVal.many [7, 8, 11]),
  ("onc", TermVal.many [10, 11]), ("onli", TermVal.many [13, 15, 20, 23, 24]), ("onu", TermVal.one 23),
  ("open", TermVal.many [10, 15]), ("oper", TermVal.many [8, 15]), ("option", TermVal.many [7, 13, 15, 18, 20, 23]),
  ("order", TermVal.many [11, 13, 18]), ("org", TermVal.one 10), ("orient", TermVal.one 12),
  ("origin", TermVal.many [15, 18, 20, 23]), ("other", TermVal.many []), ("our", TermVal.many [7, 8, 11]),
  ("out", TermVal.many [3, 5, 11, 15, 23]), ("outlin", TermVal.one 11), ("output", TermVal.many [0, 1, 3, 5, 7, 8, 11, 13, 15, 18, 20, 23]),
  ("output_fil", TermVal.one 20), ("output_file_nam", TermVal.one 1), ("output_file_path", TermVal.one 15),
  ("output_nam", TermVal.many [18, 22]), ("output_name_stem", TermVal.one 1), ("outputfil", TermVal.one 14),
  ("outsid", TermVal.one 13), ("over", TermVal.many [13, 20, 23]), ("overflow", TermVal.one 10),
  ("overlai", TermVal.one 11), ("overlap", TermVal.one 23), ("overlap_sampl", TermVal.one 13),
  ("overrid", TermVal.many [20, 23]), ("overwrit", TermVal.many [7, 8, 15, 23]), ("own", TermVal.many [8, 11]),
  ("ozgur", TermVal.one 18), ("packag", TermVal.many [10, 13]), ("pad", TermVal.one 23),
  ("page", TermVal.many [7, 8, 12]), ("param", TermVal.many [15, 24]), ("paramet", TermVal.many []),
  ("paramv", TermVal.one 13), ("pardo", TermVal.one 20), ("part", TermVal.many [11, 15, 20]),
  ("pass", TermVal.many [7, 8, 18, 20, 22, 23]), ("past", TermVal.one 10), ("path", TermVal.many [0, 1, 3, 5, 7, 8, 13, 15, 18, 20, 23]),
  ("path_to_fil", TermVal.one 20), ("path_to_file1", TermVal.one 0), ("path_to_file2", TermVal.one 0),
  ("path_to_input_fil", TermVal.many [1, 3, 5, 7, 15, 18, 20]), ("pattern", TermVal.many [7, 11, 20]), ("peak", TermVal.many [18, 20, 24]),
  ("peak_indic", TermVal.many [20, 24]), ("peak_norm", TermVal.one 15), ("peak_valu", TermVal.one 24),
  ("peakindex", TermVal.one 18), ("peasi", TermVal.one 8), ("per", TermVal.one 23),
  ("perfect", TermVal.one 13), ("perform", TermVal.many [18, 20, 23]), ("period", TermVal.many []),
  ("period_complex", TermVal.one 4), ("period_complex_second", TermVal.one 4), ("period_simpl", TermVal.one 4),
  ("period_simple_second", TermVal.one 4), ("php", TermVal.one 20), ("pick", TermVal.one 18),
  ("piec", TermVal.one 20), ("pip", TermVal.many []), ("place", TermVal.one 7),
  ("pleas", TermVal.many [10, 12]), ("plot", TermVal.many [1, 5, 14, 15, 18, 20, 22, 23]), ("plot_beat_spectrum", TermVal.one 20),
  ("plot_sim_matrix", TermVal.one 20), ("plot_spectrogram", TermVal.one 15), ("plot_stft", TermVal.one 23),
  ("plot_time_domain", TermVal.one 15), ("plt", TermVal.many [10, 23]), ("png", TermVal.many [1, 5, 20, 23]),
  ("point", TermVal.many [13, 15, 23]), ("popul", TermVal.many [8, 22]), ("popular", TermVal.one 12),
  ("portion", TermVal.one 13), ("porto", TermVal.one 20), ("portug", TermVal.one 20),
  ("posit", TermVal.one 18), ("possibl", TermVal.many [8, 10, 13, 20]), ("post", TermVal.one 10),
  ("power", TermVal.many [8, 13, 15, 20, 23]), ("power_spectrogram_data", TermVal.many [8, 15]), ("pre", TermVal.many [10, 13, 15]),
  ("predefin", TermVal.one 13), ("presum", TermVal.one 10), ("pretti", TermVal.one 11),
  ("previou", TermVal.one 8), ("previous", TermVal.one 24), ("principl", TermVal.one 11),
  ("print", TermVal.many [4, 7, 10, 15, 20, 23]), ("prior", TermVal.many [10, 14]), ("process", TermVal.many [13, 14, 18]),
  ("produc", TermVal.many [8, 11, 23]), ("project", TermVal.one 20), ("pronounc", TermVal.one 12),
  ("proper", TermVal.one 24), ("properti", TermVal.many [11, 13, 23]), ("propos", TermVal.one 18),
  ("prototyp", TermVal.one 12), ("provid", TermVal.many [7, 8, 12, 13, 14, 20, 22, 23, 24]), ("proxim", TermVal.one 13),
  ("psd", TermVal.many [13, 23]), ("put", TermVal.many [7, 15]), ("py2", TermVal.one 10),
  ("pylab_setup", TermVal.one 10), ("pypi", TermVal.one 10), ("pyplot", TermVal.many [10, 23]),
  ("python2", TermVal.one 10), ("python", TermVal.many [8, 10, 12]), ("quadrat", TermVal.one 13),
  ("question", TermVal.one 12), ("quick", TermVal.one 8), ("rafii", TermVal.many [13, 20]),
  ("rais", TermVal.many [15, 22]), ("random", TermVal.many [11, 13]), ("random_beat_spectrum", TermVal.one 11),
  ("randomize_input_matric", TermVal.one 14), ("randsvd", TermVal.one 13), ("rank", TermVal.one 13),
  ("rate", TermVal.many [13, 15, 18, 20, 22, 23]), ("rather", TermVal.one 8), ("read", TermVal.one 15),
  ("readi", TermVal.many [7, 24]), ("real", TermVal.many [11, 15, 18, 20, 23]), ("realli", TermVal.one 7),
  ("rebuild", TermVal.one 23), ("receiv", TermVal.many [13, 14, 18]), ("recent", TermVal.one 10),
  ("recombine_calculated_matric", TermVal.one 14), ("recommend", TermVal.many [10, 20, 23]), ("reconstruct", TermVal.one 8),
  ("reconstruct_reflect", TermVal.many [8, 15, 23]), ("recreat", TermVal.one 23), ("rectangular", TermVal.many []),
  ("reduc", TermVal.one 23), ("ref", TermVal.one 15), ("refer", TermVal.many [7, 13, 14, 18, 20]),
  ("reflect", TermVal.many [8, 23]), ("region", TermVal.one 15), ("regular", TermVal.many [8, 24]),
  ("regularli", TermVal.one 15), ("reiniti", TermVal.one 8), ("reinstal", TermVal.one 10),
  ("relat", TermVal.many [7, 10, 15]), ("releas", TermVal.many [7, 8]), ("relev", TermVal.one 22),
  ("rememb", TermVal.one 23), ("remov", TermVal.many [8, 23]), ("remove_pad", TermVal.one 23),
  ("remove_reflect", TermVal.many [0, 8, 15, 23]), ("render", TermVal.one 10), ("repeat", TermVal.many []),
  ("repeating_period", TermVal.many [4, 11, 20]), ("repet1", TermVal.one 20), ("repet2", TermVal.many [11, 20])]

def nusslTerms4 : List (String × TermVal) := [
  ("repet3", TermVal.one 20), ("repet4", TermVal.one 20), ("repet", TermVal.many []),
  ("repet_exact_period", TermVal.one 11), ("repet_period_guess", TermVal.one 11), ("repet_sim", TermVal.one 5),
  ("repet_typ", TermVal.one 20), ("repettyp", TermVal.one 20), ("report", TermVal.one 12),
  ("repres", TermVal.many [8, 11, 15, 20, 23, 24]), ("represent", TermVal.many [7, 8, 15]), ("requir", TermVal.many []),
  ("research", TermVal.one 20), ("reshap", TermVal.one 13), ("respons", TermVal.one 8),
  ("result", TermVal.many [1, 8, 13, 18, 20]), ("retriev", TermVal.one 20), ("reus", TermVal.many [11, 15]),
  ("review", TermVal.one 12), ("rickard", TermVal.one 18), ("right", TermVal.many [7, 13]),
  ("root", TermVal.many [7, 15]), ("row", TermVal.many [13, 18, 20]), ("rubric", TermVal.many [15, 20]),
  ("run", TermVal.many [1, 3, 5, 10, 13, 14, 15, 18, 20, 22]), ("runtimeerror", TermVal.one 10), ("sai", TermVal.one 11),
  ("same", TermVal.many [7, 8, 11, 13, 15, 18, 23, 24]), ("sampl", TermVal.many [7, 13, 15, 18, 20, 22, 23]), ("sample_audio_fil", TermVal.one 15),
  ("sample_r", TermVal.many [4, 7, 15, 18, 20, 22, 23]), ("sampler", TermVal.one 15), ("satisfi", TermVal.one 10),
  ("save", TermVal.many [15, 18, 23]), ("scalabl", TermVal.one 13), ("scalar", TermVal.one 18),
  ("scale", TermVal.one 24), ("scikit", TermVal.one 13), ("scipi", TermVal.many [10, 13, 23]),
  ("scott", TermVal.one 18), ("search", TermVal.many [12, 24]), ("sebastian", TermVal.one 14),
  ("sec", TermVal.one 13), ("second", TermVal.many [4, 7, 8, 11, 13, 15, 20, 23, 24]), ("section", TermVal.one 15),
  ("see", TermVal.many [7, 8, 10, 11, 12, 15, 23]), ("seealso", TermVal.one 15), ("select", TermVal.one 13),
  ("self", TermVal.many [8, 15, 18, 20, 23]), ("sens", TermVal.one 7), ("sensor", TermVal.one 18),
  ("separ", TermVal.many [7, 8, 11, 12, 13, 14, 15, 18, 20, 22, 23]), ("separarationbas", TermVal.many [12, 16]), ("separation_bas", TermVal.many [14, 18, 20, 22]),
  ("separation_class", TermVal.one 22), ("separationbas", TermVal.many []), ("separationbasedecod", TermVal.one 22),
  ("seri", TermVal.many [8, 13, 15, 23]), ("serial", TermVal.one 22), ("set", TermVal.many [1, 3, 5, 7, 8, 10, 13, 14, 15, 20, 23]),
  ("set_active_region", TermVal.one 15), ("set_active_region_to_default", TermVal.one 15), ("settabl", TermVal.one 23),
  ("setup", TermVal.one 10), ("seung", TermVal.one 14), ("shape", TermVal.many [7, 8, 13, 23, 24]),
  ("share", TermVal.one 24), ("shat", TermVal.one 13), ("should", TermVal.many [8, 10, 13, 22, 23]),
  ("should_update_activ", TermVal.one 14), ("should_update_templ", TermVal.one 14), ("shouldnorm", TermVal.one 14),
  ("show", TermVal.one 23), ("show_interactive_plot", TermVal.one 23), ("shown", TermVal.one 23),
  ("side", TermVal.one 20), ("sig", TermVal.one 15), ("siganl", TermVal.one 13),
  ("signal1", TermVal.many [0, 7, 8]), ("signal1_lowpass", TermVal.one 8), ("signal1_lp", TermVal.one 8),
  ("signal2", TermVal.one 7), ("signal3", TermVal.one 7), ("signal", TermVal.many [1, 3, 5, 7, 8, 11, 13, 15, 18, 20, 23]),
  ("signal_dur", TermVal.many [7, 15]), ("signal_length", TermVal.many [7, 15]), ("signal_starting_posit", TermVal.one 15),
  ("signallength", TermVal.one 20), ("signatur", TermVal.one 8), ("sigpow", TermVal.many []),
  ("sigrec", TermVal.many []), ("sigspec", TermVal.many []), ("sim", TermVal.many []),
  ("sim_mat", TermVal.one 20), ("similar", TermVal.many [8, 13, 18, 20]), ("similarity_matrix", TermVal.one 20),
  ("similarity_threshold", TermVal.one 20), ("similarli", TermVal.one 7), ("simpl", TermVal.many [4, 7, 20]),
  ("simpli", TermVal.one 7), ("simultan", TermVal.one 20), ("simval", TermVal.one 13),
  ("simval_cross", TermVal.one 13), ("sin", TermVal.many [7, 23]), ("sinc", TermVal.many [8, 23]),
  ("sine", TermVal.one 23), ("sine_wav", TermVal.one 23), ("singl", TermVal.many [7, 8, 13, 14, 15, 23]),
  ("singular", TermVal.one 13), ("site", TermVal.one 10), ("situat", TermVal.one 23),
  ("size", TermVal.many [11, 15, 18]), ("slice", TermVal.many [11, 23]), ("slide", TermVal.one 13),
  ("smaller", TermVal.one 24), ("smat", TermVal.one 18), ("smooth", TermVal.one 18),
  ("societi", TermVal.one 20), ("soft", TermVal.one 20), ("solut", TermVal.one 10),
  ("some", TermVal.many [7, 8, 10, 11]), ("someth", TermVal.one 8), ("sometim", TermVal.one 10),
  ("somewher", TermVal.one 10), ("sort", TermVal.one 20), ("sound", TermVal.one 20),
  ("sourc", TermVal.many []), ("sourcekernel", TermVal.one 13), ("specif", TermVal.many [10, 24]),
  ("specifi", TermVal.many [13, 14, 15, 23]), ("specparam", TermVal.one 13), ("spectral", TermVal.many [13, 23]),
  ("spectral_util", TermVal.many []), ("spectrogram", TermVal.many []), ("spectrum", TermVal.many [11, 20]),
  ("speech", TermVal.many [13, 18]), ("springer", TermVal.one 18), ("sqrt", TermVal.one 13),
  ("squar", TermVal.many [7, 15]), ("src1", TermVal.one 0), ("src2", TermVal.one 0),
  ("stack", TermVal.one 10), ("stackoverflow", TermVal.many [10, 23, 24]), ("stage", TermVal.one 13),
  ("stai", TermVal.one 23), ("standard", TermVal.many []), ("stdin", TermVal.one 10),
  ("stereo", TermVal.many [7, 18]), ("stft", TermVal.many []), ("stft_data", TermVal.many [8, 15]),
  ("stft_length", TermVal.many [8, 15]), ("stft_more_bin", TermVal.one 23), ("stft_param", TermVal.many [1, 4, 15, 18, 20, 22]),
  ("stft_with_reflect", TermVal.one 23), ("stftparam", TermVal.many []), ("stftparm", TermVal.one 23),
  ("still", TermVal.many [11, 23]), ("stop", TermVal.one 24), ("store", TermVal.many [1, 3, 5, 8, 15]),
  ("str", TermVal.many [1, 15, 18, 22, 23]), ("strength", TermVal.one 11), ("string", TermVal.many [10, 13, 15, 20, 22, 23, 24]),
  ("structur", TermVal.many [10, 13]), ("sub", TermVal.many [13, 15]), ("subtract", TermVal.many [7, 15]),
  ("sudo", TermVal.one 10), ("sum", TermVal.one 15), ("support", TermVal.one 13),
  ("suppress", TermVal.one 23), ("svd", TermVal.one 13), ("symmetr", TermVal.one 20),
  ("system", TermVal.many [14, 20]), ("take", TermVal.many [20, 23]), ("taken", TermVal.one 8),
  ("taper", TermVal.one 23), ("target", TermVal.one 10), ("task", TermVal.one 7),
  ("techniqu", TermVal.many [11, 18, 20]), ("tell", TermVal.one 7), ("templat", TermVal.one 14),
  ("tempor", TermVal.one 15), ("termin", TermVal.one 10), ("test", TermVal.one 8),
  ("tfcoords1", TermVal.one 13), ("tfcoords2", TermVal.one 13), ("than", TermVal.many [10, 15, 23]),
  ("thei", TermVal.many [7, 8, 13]), ("them", TermVal.many [8, 10, 11, 23]), ("thi", TermVal.many [7, 8, 10, 11, 12, 13, 14, 15, 20, 22, 23, 24]),
  ("thing", TermVal.many [7, 11, 15]), ("think", TermVal.one 11), ("third", TermVal.many [8, 13]),
  ("those", TermVal.many [10, 11, 23]), ("three", TermVal.one 13), ("three_d_plot", TermVal.many [1, 18]),
  ("threshold", TermVal.many [18, 20, 24]), ("through", TermVal.many [8, 13, 15]), ("thrown", TermVal.one 15),
  ("thusli", TermVal.one 8), ("time", TermVal.many [7, 8, 11, 13, 15, 18, 20, 23]), ("time_vector", TermVal.many [7, 15]),
  ("timeseri", TermVal.many []), ("timestamp", TermVal.many [7, 15]), ("titl", TermVal.one 23),
  ("tkagg", TermVal.one 10), ("to_json", TermVal.many [15, 22, 23]), ("to_mono", TermVal.many [7, 8, 15]),
  ("top", TermVal.one 23), ("traceback", TermVal.one 10), ("track", TermVal.one 20),
  ("trade", TermVal.one 8), ("transact", TermVal.many [13, 18]), ("transform", TermVal.many [8, 15, 23]),
  ("trick", TermVal.one 8), ("truncat", TermVal.many [8, 13, 15, 24]), ("truncate_sampl", TermVal.one 15),
  ("truncate_second", TermVal.one 15), ("tune", TermVal.one 12), ("tupl", TermVal.one 24),
  ("turn", TermVal.one 24), ("tvec", TermVal.many []), ("twice", TermVal.many [11, 13]),
  ("two", TermVal.many [7, 10, 11, 13, 14, 15, 18, 24]), ("twodsmooth", TermVal.one 18), ("type", TermVal.many [11, 13, 20, 23]),
  ("unalt", TermVal.one 8), ("under", TermVal.one 10), ("understand", TermVal.one 7),
  ("uniform", TermVal.one 11), ("univers", TermVal.one 12), ("unlink", TermVal.one 23),
  ("unmix", TermVal.one 18), ("until", TermVal.one 15), ("upcom", TermVal.one 7),
  ("updat", TermVal.many [14, 20, 23]), ("update_period", TermVal.many [4, 20]), ("upon", TermVal.many [15, 23]),
  ("upper", TermVal.one 24), ("us20130064379", TermVal.one 20), ("use_librosa", TermVal.many [8, 15, 23]),
  ("user", TermVal.many [8, 12, 13, 14, 15, 23]), ("userdef", TermVal.one 13), ("usual", TermVal.one 10),
  ("util", TermVal.many []), ("valu", TermVal.many [7, 8, 11, 13, 15, 18, 20, 23, 24]), ("variant", TermVal.one 20),
  ("vector", TermVal.many [7, 8, 13, 14, 18, 20, 23]), ("venv", TermVal.one 10), ("verbos", TermVal.one 15),
  ("version", TermVal.many []), ("vertic", TermVal.many [13, 15]), ("via", TermVal.one 18),
  ("voic", TermVal.one 20), ("wai", TermVal.many [7, 8, 10, 11, 23]), ("walk", TermVal.one 15),
  ("want", TermVal.many [7, 8, 11, 23, 24]), ("warn", TermVal.one 10), ("wav", TermVal.many [0, 1, 3, 4, 5, 7, 8, 11, 13, 15, 18, 20]),
  ("wave", TermVal.one 23), ("waveform", TermVal.one 15), ("weight", TermVal.one 13),
  ("well", TermVal.many [8, 12, 23]), ("wfunc", TermVal.one 13), ("what", TermVal.many [8, 10, 11, 15, 23]),
  ("when", TermVal.many [7, 8, 10, 11, 15, 23]), ("where", TermVal.many [10, 11, 13, 15, 23]), ("whether", TermVal.many [13, 18]),
  ("which", TermVal.many [10, 13, 14, 15, 20, 24]), ("whole", TermVal.many [13, 15, 18]), ("whoop", TermVal.one 8),
  ("why", TermVal.one 11), ("wide", TermVal.many []), ("widowlength", TermVal.one 13),
  ("width", TermVal.one 13), ("win", TermVal.one 20), ("win_length", TermVal.one 23),
  ("win_typ", TermVal.one 23), ("window", TermVal.many [13, 15, 18, 20, 23]), ("window_length", TermVal.many [8, 15, 20, 23]),
  ("window_overlap", TermVal.one 23), ("window_typ", TermVal.many [8, 15, 20, 23]), ("windowattribut", TermVal.many [18, 20]),
  ("windowlength", TermVal.one 13), ("windowtyp", TermVal.many [13, 20, 23]), ("wise", TermVal.many [15, 18]),
  ("within", TermVal.many [7, 23]), ("without", TermVal.many [8, 23]), ("won", TermVal.one 20),
  ("work", TermVal.many [7, 8, 10, 11, 23, 24]), ("would", TermVal.many [7, 8, 10, 13]), ("wrapper", TermVal.one 8),
  ("write", TermVal.many [3, 5, 7, 8, 11, 15]), ("write_audio_to_fil", TermVal.many [0, 1, 3, 5, 7, 8, 11, 15]), ("wrt", TermVal.many [18, 23]),
  ("wth", TermVal.one 15), ("x86_64", TermVal.one 10), ("xhat", TermVal.one 18),
  ("yet", TermVal.one 15), ("yilmaz", TermVal.one 18), ("you", TermVal.many []),
  ("your", TermVal.many [7, 10, 23]), ("zafar", TermVal.many [13, 20]), ("zero", TermVal.many [13, 15, 23]),
  ("zero_pad", TermVal.one 15)]

def nusslTerms : List (String × TermVal) :=
  nusslTerms1 ++ nusslTerms2 ++ nusslTerms3 ++ nusslTerms4

def nusslTitleterms : List (String × TermVal) := [
  ("class", TermVal.many [13, 14, 15, 16, 18, 20, 21, 22]), ("aduiosign", TermVal.one 0), ("all", TermVal.one 11),
  ("anaconda", TermVal.one 10), ("arrai", TermVal.one 7), ("audiosign", TermVal.many [6, 7, 15]),
  ("basic", TermVal.many [7, 8]), ("code", TermVal.one 12), ("constant", TermVal.one 17),
  ("contact", TermVal.many [10, 12]), ("correct", TermVal.one 10), ("document", TermVal.one 12),
  ("download", TermVal.one 10), ("duet", TermVal.many [1, 18]), ("exampl", TermVal.many [0, 1, 2, 3, 5, 12]),
  ("file", TermVal.one 7), ("find", TermVal.one 4), ("first", TermVal.one 12),
  ("from", TermVal.many [7, 10]), ("get", TermVal.many [9, 11]), ("have", TermVal.one 10),
  ("indic", TermVal.one 12), ("initi", TermVal.one 7), ("instal", TermVal.one 10),
  ("instruct", TermVal.many []), ("introduct", TermVal.one 11), ("invers", TermVal.one 8),
  ("issu", TermVal.one 10), ("kam", TermVal.one 13), ("make", TermVal.one 10),
  ("manipul", TermVal.one 7), ("matplotlib", TermVal.one 10), ("modul", TermVal.one 19),
  ("nmf", TermVal.one 14), ("numpi", TermVal.one 7), ("nussl", TermVal.many [2, 12, 16]),
  ("object", TermVal.many [6, 8]), ("other", TermVal.one 7), ("paramet", TermVal.one 8),
  ("period", TermVal.many [4, 11]), ("pip", TermVal.one 10), ("repeat", TermVal.many [4, 11]),
  ("repet", TermVal.many [3, 4, 5, 11, 20]), ("repetsim", TermVal.one 21), ("requir", TermVal.one 10),
  ("result", TermVal.one 11), ("run", TermVal.one 11), ("separationbas", TermVal.one 22),
  ("sim", TermVal.one 5), ("song", TermVal.one 4), ("sourc", TermVal.one 10),
  ("spectral_util", TermVal.one 23), ("spectrogram", TermVal.one 8), ("start", TermVal.one 9),
  ("step", TermVal.one 12), ("stft", TermVal.one 8), ("stftparam", TermVal.one 8),
  ("sure", TermVal.one 10), ("tabl", TermVal.one 12), ("togeth", TermVal.one 11),
  ("troubleshoot", TermVal.many [10, 12]), ("util", TermVal.one 24), ("version", TermVal.one 10),
  ("you", TermVal.one 10)]

def nusslTopLevelKeys : List String :=
  ["envversion", "filenames", "objects", "objnames", "objtypes", "terms", "titles", "titleterms"]

def nusslIndex : SearchIndex :=
  { envversion := 47
    filenames := nusslFilenames
    titles := nusslTitles
    objects := nusslObjects
    objnames := nusslObjnames
    objtypes := nusslObjtypes
    terms := nusslTerms
    titleterms := nusslTitleterms }

/-- Normalize a terms-table value to a list of docname indices: a scalar
value v becomes the one-element list [v], a list value stays as it is. -/
def normalizeTermVal : TermVal → List Nat
  | .one i => [i]
  | .many is => is

/-- Association-list lookup by string key, first match wins (the mappings in
the source have unique keys). -/
def lookupKey {α : Type} (k : String) : List (String × α) → Option α
  | [] => none
  | (k2, v) :: rest => if k2 = k then some v else lookupKey k rest

/-- The result set of docname indices for querying a single term string
against the terms table of the artifact (lookup, then normalization). -/
def stftResult : List Nat :=
  match lookupKey "stft" nusslTerms with
  | some v => normalizeTermVal v
  | none => []

/-- The member names obtained by resolving a qualified owner name against
the object table of the artifact (exact-match resolution, spec section 4.3). -/
def resolveMembers (name : String) : List String :=
  match lookupKey name nusslObjects with
  | some mems => mems.map Prod.fst
  | none => []

/-- All docname indices appearing as the first component of a member entry
in the object table. -/
def objectsDocIdx : List (String × List ObjMember) → List Nat
  | [] => []
  | (_, mems) :: rest => mems.map (fun m => m.2.1) ++ objectsDocIdx rest

/-- All docname indices appearing in the terms table (a scalar value or any
element of a list value). -/
def termsDocIdx : List (String × TermVal) → List Nat
  | [] => []
  | (_, v) :: rest => normalizeTermVal v ++ termsDocIdx rest

/-- Every docname index referenced by the object table or the terms table of
a search index. -/
def allDocIdx (s : SearchIndex) : List Nat :=
  objectsDocIdx s.objects ++ termsDocIdx s.terms

/-- The three tables of the spec's data model, as a loader produces them:
docname sequence, object table, and terms table with every posting
normalized to a list (spec sections 3 and 4.1). -/
structure ParsedIndex where
  docnames : List String
  objects : List (String × List ObjMember)
  termPostings : List (String × List Nat)

/-- Parse the serialized structure into the three tables, normalizing each
terms value to a list of docname indices. -/
def parseIndex (s : SearchIndex) : ParsedIndex :=
  { docnames := s.filenames
    objects := s.objects
    termPostings := s.terms.map (fun kv => (kv.1, normalizeTermVal kv.2)) }

/-- The serialized form of the three tables: docname sequence, object table,
and terms mapping (postings re-emitted in list form). -/
structure IndexTables where
  filenames : List String
  objects : List (String × List ObjMember)
  terms : List (String × TermVal)

/-- Re-serialize the three parsed tables. -/
def serializeIndex (p : ParsedIndex) : IndexTables :=
  { filenames := p.docnames
    objects := p.objects
    terms := p.termPostings.map (fun kv => (kv.1, TermVal.many kv.2)) }

/-- All docname indices in a list of normalized postings. -/
def postingsDocIdx : List (String × List Nat) → List Nat
  | [] => []
  | (_, l) :: rest => l ++ postingsDocIdx rest

/-- Every docname index referenced by the object table or the term postings
of a parsed index. -/
def parsedDocIdx (p : ParsedIndex) : List Nat :=
  objectsDocIdx p.objects ++ postingsDocIdx p.termPostings

/-- Modelled from the spec: the Index Loader is not part of src/ (the
artifact is data whose consumer is external, spec section 4.1); per the
spec's error taxonomy (section 7) and the out-of-range scenario (section 8)
it parses the artifact into the three tables and rejects any dangling
docname reference — an index out of range of `filenames` anywhere in the
object table or the terms table — with a detectable error. -/
def loadIndex (s : SearchIndex) : Except String ParsedIndex :=
  if (allDocIdx s).all (fun i => decide (i < s.filenames.length)) then
    Except.ok (parseIndex s)
  else
    Except.error "dangling docname index out of range of filenames"

/-- A structure with a dangling docname reference: its terms table mentions
docname index 5 but its filenames sequence has a single entry. -/
def badIndex : SearchIndex :=
  { envversion := 47
    filenames := ["doc"]
    titles := ["doc title"]
    objects := []
    objnames := []
    objtypes := []
    terms := [("x", TermVal.one 5)]
    titleterms := [] }

/-- Splitting a terms table in two splits its list of referenced docname
indices. -/
theorem termsDocIdx_append (l1 l2 : List (String × TermVal)) :
    termsDocIdx (l1 ++ l2) = termsDocIdx l1 ++ termsDocIdx l2 := by
  induction l1 with
  | nil => rfl
  | cons hd tl ih =>
    obtain ⟨k, v⟩ := hd
    simp [termsDocIdx, ih, List.append_assoc]

/-- Converting a boolean bound check over a list of indices into the
corresponding universally quantified bound. -/
theorem all_lt_of_all_decide (l : List Nat) (n : Nat)
    (h : l.all (fun i => decide (i < n)) = true) : ∀ i ∈ l, i < n := by
  intro i hi
  exact of_decide_eq_true (List.all_eq_true.mp h i hi)

/-- Converting a boolean strict-sortedness check over a chunk of the terms
table into the corresponding universally quantified statement. -/
theorem pairwise_of_all_decide (l : List (String × TermVal))
    (h : l.all (fun kv => decide (List.Pairwise (fun a b : Nat => a < b)
      (normalizeTermVal kv.2))) = true) :
    ∀ kv ∈ l, List.Pairwise (fun a b : Nat => a < b) (normalizeTermVal kv.2) := by
  intro kv hkv
  exact of_decide_eq_true (List.all_eq_true.mp h kv hkv)

/-- C1 counterexample: the claim that querying the term string stft yields a
non-empty result set containing docname index 23 is false on the artifact:
the value of the key stft in the terms table normalizes to the empty list,
so the result set is empty and does not contain 23. -/
theorem stft_query_counterexample :
    ¬ (stftResult ≠ [] ∧ 23 ∈ stftResult) := by
  intro h
  exact h.1 rfl

/-- C1 (amended): looking up the term stft in the terms table of the
artifact succeeds (the key is present) but yields the empty posting list,
so the result set of docname indices is empty. -/
theorem stft_query_amended :
    lookupKey "stft" nusslTerms = some (TermVal.many []) ∧ stftResult = [] :=
  ⟨rfl, rfl⟩

/-- C2: resolving the qualified name audio_signal.AudioSignal against the
object table succeeds and the resulting member list includes the member
names stft, istft, to_json and from_json. -/
theorem audioSignal_member_resolution :
    (lookupKey "audio_signal.AudioSignal" nusslObjects).isSome = true ∧
    "stft" ∈ resolveMembers "audio_signal.AudioSignal" ∧
    "istft" ∈ resolveMembers "audio_signal.AudioSignal" ∧
    "to_json" ∈ resolveMembers "audio_signal.AudioSignal" ∧
    "from_json" ∈ resolveMembers "audio_signal.AudioSignal" := by
  refine ⟨rfl, ?_, ?_, ?_, ?_⟩ <;> decide

/-- C3: the filenames sequence has 25 entries, and every docname index that
appears anywhere in the object table (first component of a member entry) or
in the terms table (scalar value or element of a list value) is a valid
position in it. -/
theorem docname_indices_in_bounds :
    nusslIndex.filenames.length = 25 ∧
    ∀ i ∈ allDocIdx nusslIndex, i < nusslIndex.filenames.length := by
  have h0 : ∀ i ∈ objectsDocIdx nusslObjects, i < 25 := all_lt_of_all_decide _ _ rfl
  have h1 : ∀ i ∈ termsDocIdx nusslTerms1, i < 25 := all_lt_of_all_decide _ _ rfl
  have h2 : ∀ i ∈ termsDocIdx nusslTerms2, i < 25 := all_lt_of_all_decide _ _ rfl
  have h3 : ∀ i ∈ termsDocIdx nusslTerms3, i < 25 := all_lt_of_all_decide _ _ rfl
  have h4 : ∀ i ∈ termsDocIdx nusslTerms4, i < 25 := all_lt_of_all_decide _ _ rfl
  refine ⟨rfl, ?_⟩
  intro i hi
  rw [show allDocIdx nusslIndex
      = objectsDocIdx nusslObjects ++ termsDocIdx nusslTerms from rfl] at hi
  rw [show nusslTerms = nusslTerms1 ++ nusslTerms2 ++ nusslTerms3 ++ nusslTerms4 from rfl,
      termsDocIdx_append, termsDocIdx_append, termsDocIdx_append] at hi
  simp only [List.mem_append] at hi
  show i < 25
  rcases hi with h | ((h | h) | h) | h
  exacts [h0 i h, h1 i h, h2 i h, h3 i h, h4 i h]

/-- C3 witness at the concrete docname index 18, which is referenced by the
object table of the artifact. -/
theorem docname_indices_in_bounds_witness :
    18 ∈ allDocIdx nusslIndex ∧ 18 < nusslIndex.filenames.length :=
  ⟨by decide, docname_indices_in_bounds.2 18 (by decide)⟩

/-- C4: for every member entry of every inner mapping of the object table,
the object-kind code and the priority code, rendered as decimal strings,
are keys present in both the objtypes table and the objnames table. -/
theorem kind_priority_codes_in_tables :
    ∀ o ∈ nusslIndex.objects, ∀ m ∈ o.2,
      ((lookupKey (Nat.repr m.2.2.1) nusslObjtypes).isSome = true ∧
       (lookupKey (Nat.repr m.2.2.1) nusslObjnames).isSome = true) ∧
      ((lookupKey (Nat.repr m.2.2.2.1) nusslObjtypes).isSome = true ∧
       (lookupKey (Nat.repr m.2.2.2.1) nusslObjnames).isSome = true) := by
  decide

/-- C4 witness at the concrete object-table entry for the outer key Duet
and its single member entry with kind code 1 and priority code 1. -/
theorem kind_priority_codes_witness :
    ((lookupKey (Nat.repr 1) nusslObjtypes).isSome = true ∧
     (lookupKey (Nat.repr 1) nusslObjnames).isSome = true) ∧
    ((lookupKey (Nat.repr 1) nusslObjtypes).isSome = true ∧
     (lookupKey (Nat.repr 1) nusslObjnames).isSome = true) :=
  kind_priority_codes_in_tables ("Duet", [("Duet", 18, 1, 1, "")]) (by decide)
    ("Duet", 18, 1, 1, "") (by decide)

/-- C5 counterexample: the claim that the serialized top-level object
contains no titles key is false: titles is one of the top-level keys of the
structure passed to Search.setIndex in src/searchindex.js. -/
theorem titles_key_counterexample : "titles" ∈ nusslTopLevelKeys := by decide

/-- C5 (amended): the titles field is present in this artifact, as a
sequence of page-title strings indexed by docname position, parallel to the
filenames sequence (both have 25 entries). -/
theorem titles_field_present :
    "titles" ∈ nusslTopLevelKeys ∧
    nusslIndex.titles.length = nusslIndex.filenames.length ∧
    nusslIndex.titles.length = 25 :=
  ⟨by decide, rfl, rfl⟩

/-- C6: the terms table mixes both value representations: some term maps to
a single docname index and some term maps to a list of docname indices, and
normalizing a scalar value v to the one-element list [v] (and a list value
to itself) makes every terms value a list of docname indices. -/
theorem terms_values_both_forms :
    (∃ k i, (k, TermVal.one i) ∈ nusslIndex.terms) ∧
    (∃ k l, (k, TermVal.many l) ∈ nusslIndex.terms) ∧
    (∀ i, normalizeTermVal (TermVal.one i) = [i]) ∧
    (∀ l, normalizeTermVal (TermVal.many l) = l) :=
  ⟨⟨"00j", 8, by decide⟩, ⟨"00000000e", [7, 8], by decide⟩,
   fun _ => rfl, fun _ => rfl⟩

/-- The terms table round-trips pointwise: re-serializing the normalized
postings yields, for every term in order, the same key and a posting list
equal as a multiset to the normalization of the original value. -/
theorem roundtrip_terms (ts : List (String × TermVal)) :
    List.Forall₂ (fun a b : String × TermVal => a.1 = b.1 ∧
        Multiset.ofList (normalizeTermVal a.2) = Multiset.ofList (normalizeTermVal b.2))
      ((ts.map (fun kv => (kv.1, normalizeTermVal kv.2))).map
        (fun kv => (kv.1, TermVal.many kv.2))) ts := by
  induction ts with
  | nil => exact List.Forall₂.nil
  | cons hd tl ih => exact List.Forall₂.cons ⟨rfl, rfl⟩ ih

/-- C7: parsing the artifact into the three tables and re-serializing
preserves the docname sequence in order, preserves every object entry, and
maps every term, in order, to a posting list equal as a multiset to the
original one. -/
theorem parse_serialize_roundtrip :
    (serializeIndex (parseIndex nusslIndex)).filenames = nusslIndex.filenames ∧
    (serializeIndex (parseIndex nusslIndex)).objects = nusslIndex.objects ∧
    List.Forall₂ (fun a b : String × TermVal => a.1 = b.1 ∧
        Multiset.ofList (normalizeTermVal a.2) = Multiset.ofList (normalizeTermVal b.2))
      (serializeIndex (parseIndex nusslIndex)).terms nusslIndex.terms :=
  ⟨rfl, rfl, roundtrip_terms nusslIndex.terms⟩

/-- Parsing preserves the referenced docname indices: the indices of the
parsed tables are exactly those of the serialized structure. -/
theorem parsedDocIdx_parseIndex (s : SearchIndex) :
    parsedDocIdx (parseIndex s) = allDocIdx s := by
  show objectsDocIdx s.objects ++ postingsDocIdx
      (s.terms.map (fun kv => (kv.1, normalizeTermVal kv.2)))
    = objectsDocIdx s.objects ++ termsDocIdx s.terms
  have h : ∀ ts : List (String × TermVal),
      postingsDocIdx (ts.map (fun kv => (kv.1, normalizeTermVal kv.2))) = termsDocIdx ts := by
    intro ts
    induction ts with
    | nil => rfl
    | cons hd tl ih =>
      obtain ⟨k, v⟩ := hd
      simp [postingsDocIdx, termsDocIdx, ih]
  rw [h]

/-- C8: the loader returns a detectable error if and only if some docname
index in the structure is out of range of the filenames sequence, and a
successfully loaded index never contains an out-of-range docname index. -/
theorem loadIndex_error_iff_dangling (s : SearchIndex) :
    ((∃ e, loadIndex s = Except.error e) ↔
      ∃ i ∈ allDocIdx s, s.filenames.length ≤ i) ∧
    (∀ p, loadIndex s = Except.ok p → ∀ i ∈ parsedDocIdx p, i < p.docnames.length) := by
  by_cases h : (allDocIdx s).all (fun i => decide (i < s.filenames.length)) = true
  · have hload : loadIndex s = Except.ok (parseIndex s) := by
      unfold loadIndex
      rw [if_pos h]
    have hb : ∀ i ∈ allDocIdx s, i < s.filenames.length := all_lt_of_all_decide _ _ h
    constructor
    · constructor
      · rintro ⟨e, he⟩
        rw [hload] at he
        exact absurd he (by simp)
      · rintro ⟨i, hi, hge⟩
        exact absurd (hb i hi) (Nat.not_lt.mpr hge)
    · intro p hp
      rw [hload] at hp
      obtain rfl : parseIndex s = p := by
        injection hp
      rw [parsedDocIdx_parseIndex]
      exact hb
  · have hload : loadIndex s = Except.error "dangling docname index out of range of filenames" := by
      unfold loadIndex
      rw [if_neg h]
    constructor
    · constructor
      · intro _
        rw [List.all_eq_true] at h
        push_neg at h
        obtain ⟨i, hi, hdec⟩ := h
        refine ⟨i, hi, ?_⟩
        have : ¬ i < s.filenames.length := fun hlt => hdec (decide_eq_true hlt)
        exact Nat.le_of_not_lt this
      · intro _
        exact ⟨_, hload⟩
    · intro p hp
      rw [hload] at hp
      exact absurd hp (by simp)

/-- C8 witness: on a concrete structure whose terms table references
docname index 5 while its filenames sequence has a single entry, the loader
returns a detectable error. -/
theorem loadIndex_error_iff_dangling_witness :
    ∃ e, loadIndex badIndex = Except.error e :=
  (loadIndex_error_iff_dangling badIndex).1.mpr ⟨5, by decide, by decide⟩

/-- C9: every posting in the terms table, once normalized, is sorted in
strictly increasing order of docname index (hence contains no duplicate
index); empty posting lists occur, and in particular the value of the term
stft is the empty list. -/
theorem term_postings_strictly_sorted :
    (∀ kv ∈ nusslIndex.terms,
      List.Pairwise (fun a b : Nat => a < b) (normalizeTermVal kv.2)) ∧
    (∀ kv ∈ nusslIndex.terms, (normalizeTermVal kv.2).Nodup) ∧
    (∃ kv ∈ nusslIndex.terms, kv.2 = TermVal.many []) ∧
    lookupKey "stft" nusslTerms = some (TermVal.many []) := by
  have hp : ∀ kv ∈ nusslIndex.terms,
      List.Pairwise (fun a b : Nat => a < b) (normalizeTermVal kv.2) := by
    have g1 := pairwise_of_all_decide nusslTerms1 rfl
    have g2 := pairwise_of_all_decide nusslTerms2 rfl
    have g3 := pairwise_of_all_decide nusslTerms3 rfl
    have g4 := pairwise_of_all_decide nusslTerms4 rfl
    intro kv hkv
    rw [show nusslIndex.terms
        = nusslTerms1 ++ nusslTerms2 ++ nusslTerms3 ++ nusslTerms4 from rfl] at hkv
    simp only [List.mem_append] at hkv
    rcases hkv with ((h | h) | h) | h
    exacts [g1 kv h, g2 kv h, g3 kv h, g4 kv h]
  refine ⟨hp, ?_, ⟨("class", TermVal.many []), by decide, rfl⟩, rfl⟩
  intro kv hkv
  exact List.Pairwise.imp (fun hab => Nat.ne_of_lt hab) (hp kv hkv)

/-- C9 witness at the concrete terms-table entry for the key 00000000e,
whose posting list [7, 8] is strictly increasing. -/
theorem term_postings_strictly_sorted_witness :
    List.Pairwise (fun a b : Nat => a < b) (normalizeTermVal (TermVal.many [7, 8])) :=
  term_postings_strictly_sorted.1 ("00000000e", TermVal.many [7, 8]) (by decide)

/-- C10: the objtypes and objnames tables have exactly the key set of
decimal strings 0 through 6, in the same order, and for every key the
objtypes value is the domain and kind label of the objnames triple joined
by a colon. -/
theorem objtypes_objnames_agree :
    nusslIndex.objtypes.map Prod.fst = ["0", "1", "2", "3", "4", "5", "6"] ∧
    nusslIndex.objnames.map Prod.fst = ["0", "1", "2", "3", "4", "5", "6"] ∧
    ∀ kv ∈ nusslIndex.objnames,
      lookupKey kv.1 nusslIndex.objtypes = some (kv.2.1 ++ ":" ++ kv.2.2.1) := by
  refine ⟨rfl, rfl, by decide⟩

/-- C10 witness at the concrete key 3, whose objnames triple is
(py, method, Python method) and whose objtypes value is py:method. -/
theorem objtypes_objnames_agree_witness :
    lookupKey "3" nusslIndex.objtypes = some ("py" ++ ":" ++ "method") :=
  objtypes_objnames_agree.2.2 ("3", "py", "method", "Python method") (by decide)
